import Mathlib

/- Verification development for Sigillum, a PDF digital-signature tool.

   The TypeScript frontend (main.ts, utils.ts) is embedded shallowly as pure
   state-transition functions over an application-state record and a UI-state
   record; DOM elements become fields, event handlers become functions from
   old state to new state, and the asynchronous Tauri `invoke` boundary is a
   function argument so a handler can be analysed against an arbitrary or a
   failing engine. The Rust signing engine behind that boundary is not part
   of the frontend sources; its operations (Canonicalizer, Signer, Verifier,
   KeyStore) are modelled from the specification, with the cryptographic
   primitives abstracted into a scheme record carrying the RSA correctness
   property. -/

namespace Sigillum

/-- Embeds `isPrefixList pat l`: `pat` is a literal prefix of `l`.
Helper for the JavaScript `String.prototype.includes` model. -/
def isPrefixList : List Char → List Char → Bool
  | [], _ => true
  | _ :: _, [] => false
  | a :: as, b :: bs => a == b && isPrefixList as bs

/-- Helper scanning every suffix of the subject for the pattern. -/
def includesAux (pat : List Char) : List Char → Bool
  | [] => isPrefixList pat []
  | c :: rest => isPrefixList pat (c :: rest) || includesAux pat rest

/-- Embeds JavaScript `s.includes(pat)` (used as `file.type.includes("pdf")`
in utils.ts, handleFileSelect). -/
def strIncludes (s pat : String) : Bool := includesAux pat.data s.data

/-- Embeds JavaScript `s.trim()`: strip leading and trailing whitespace.
Used by main.ts on the signer-name and key-import inputs. -/
def jsTrim (s : String) : String :=
  ⟨((s.data.dropWhile Char.isWhitespace).reverse.dropWhile Char.isWhitespace).reverse⟩

/-- Render `tenths` tenths as a decimal string with exactly one digit after
the point, e.g. `20 ↦ "2.0"`. -/
def oneDecimalString (tenths : Nat) : String :=
  toString (tenths / 10) ++ "." ++ toString (tenths % 10)

/-- Embeds `(num / den).toFixed(1)` for a natural `num` and a power-of-two
`den` (1024 or 1048576): the quotient is exact in double precision for any
realistic file size, and `toFixed` rounds to the nearest tenth, ties
upward, giving `⌊(num·10)/den + 1/2⌋ = ⌊(num·20 + den)/(2·den)⌋` tenths. -/
def jsToFixed1 (num den : Nat) : Nat := (num * 20 + den) / (2 * den)

/-- Embeds `formatFileSize` from utils.ts lines 1-5: bytes below 1024 print
as an integer with " B", below 1024·1024 as one-decimal kilobytes with
" KB", and anything larger as one-decimal megabytes with " MB". -/
def formatFileSize (bytes : Nat) : String :=
  if bytes < 1024 then toString bytes ++ " B"
  else if bytes < 1024 * 1024 then
    oneDecimalString (jsToFixed1 bytes 1024) ++ " KB"
  else oneDecimalString (jsToFixed1 bytes (1024 * 1024)) ++ " MB"

/-- Embeds the browser `File` object as the frontend sees it: name, size,
MIME type, and the bytes `readFileAsBytes` would produce. -/
structure FileModel where
  name : String
  size : Nat
  mimeType : String
  bytes : List Nat
deriving Repr, DecidableEq

/-- Embeds the TS interface `SignPdfRequest` from main.ts. -/
structure SignPdfRequest where
  pdf_data : List Nat
  name : String
  extra : String
deriving Repr, DecidableEq

/-- Embeds the TS `signature_info` payload shared by `SignPdfResponse` and
`VerifyPdfResponse` in main.ts. -/
structure SignatureInfo where
  signer_name : String
  timestamp : String
  extra : String
  signature : String
deriving Repr, DecidableEq

/-- Embeds the TS interface `SignPdfResponse` from main.ts. -/
structure SignPdfResponse where
  signed_pdf : List Nat
  signature_info : SignatureInfo
deriving Repr, DecidableEq

/-- Embeds the TS interface `VerifyPdfResponse` from main.ts. -/
structure VerifyPdfResponse where
  is_signed : Bool
  signature_info : Option SignatureInfo
  message : String
deriving Repr, DecidableEq

/-- Embeds the mutable `state` object of main.ts lines 65-72. -/
structure AppState where
  hasKey : Bool
  currentPublicKey : String
  selectedFile : Option FileModel
  signedPdfData : Option (List Nat)
  verifySelectedFile : Option FileModel
  currentTab : String
deriving Repr, DecidableEq

/-- Embeds the DOM state the modelled handlers touch: each field mirrors one
element property written by main.ts or utils.ts (a `hidden`-class flag, a
`textContent`, or a `disabled` flag). -/
structure Ui where
  modalVisible : Bool
  modalTitle : String
  modalContent : String
  btnGenerateKeyHidden : Bool
  btnImportKeyHidden : Bool
  btnExportKeyHidden : Bool
  keySectionHidden : Bool
  publicKeyContent : String
  noKeyMessageHidden : Bool
  signFormHidden : Bool
  btnSignDisabled : Bool
  btnVerifyDisabled : Bool
  resultSectionHidden : Bool
  resultName : String
  resultTimestamp : String
  resultExtra : String
  resultSignature : String
  verifyResultHidden : Bool
  verifySuccessHidden : Bool
  verifyErrorHidden : Bool
  verifyDetailsHidden : Bool
  verifyMessage : String
  verifyName : String
  verifyTimestamp : String
  verifyExtra : String
  verifySignature : String
  verifyErrorMessage : String
  fileInfoHidden : Bool
  fileName : String
  fileSize : String
  dropZoneContentHidden : Bool
deriving Repr, DecidableEq

/-- Embeds `showModal` from utils.ts: set title and content, unhide the
overlay. -/
def showModalUi (u : Ui) (title content : String) : Ui :=
  {u with modalTitle := title, modalContent := content, modalVisible := true}

/-- Embeds `hideModal` from utils.ts. -/
def hideModalUi (u : Ui) : Ui := {u with modalVisible := false}

/-- Embeds `showError` from utils.ts: a modal titled "Error" wrapping the
message in an error paragraph. -/
def showErrorUi (u : Ui) (message : String) : Ui :=
  showModalUi u "Error" ("<p class=\"message error\">" ++ message ++ "</p>")

/-- Embeds `showTemporarySuccess` from utils.ts at the instant the success
modal is shown (the delayed hide is a timer, outside the transition). -/
def showTemporarySuccessUi (u : Ui) (message : String) : Ui :=
  showModalUi u "Success" ("<p class=\"message success\">" ++ message ++ "</p>")

/-- Embeds `setButtonLoading(btnSign, true, ...)` restricted to the
`disabled` property the model tracks. -/
def setBtnSignLoading (u : Ui) : Ui := {u with btnSignDisabled := true}

/-- Embeds `resetButton(btnSign, ...)`. -/
def resetBtnSign (u : Ui) : Ui := {u with btnSignDisabled := false}

/-- Embeds `setButtonLoading(btnVerify, true, ...)`. -/
def setBtnVerifyLoading (u : Ui) : Ui := {u with btnVerifyDisabled := true}

/-- Embeds `resetButton(btnVerify, ...)`. -/
def resetBtnVerify (u : Ui) : Ui := {u with btnVerifyDisabled := false}

/-- Embeds `updateKeyUI` from main.ts lines 139-149, reading
`state.currentPublicKey` from the application state. -/
def updateKeyUi (s : AppState) (hk : Bool) (u : Ui) : Ui :=
  {u with btnGenerateKeyHidden := hk,
          btnImportKeyHidden := hk,
          btnExportKeyHidden := !hk,
          keySectionHidden := !hk,
          publicKeyContent := if hk then s.currentPublicKey else "No key loaded",
          noKeyMessageHidden := hk,
          signFormHidden := !hk}

/-- Embeds `displaySignResult` from main.ts lines 159-168. -/
def displaySignResultUi (resp : SignPdfResponse) (u : Ui) : Ui :=
  {u with resultName := resp.signature_info.signer_name,
          resultTimestamp := resp.signature_info.timestamp,
          resultExtra := if resp.signature_info.extra = "" then "(none)"
                         else resp.signature_info.extra,
          resultSignature := resp.signature_info.signature,
          resultSectionHidden := false}

/-- Embeds the response-display block of `verifyPdf`, main.ts lines 315-332:
the result section is unhidden, then the detail fields are populated only
when `is_signed` holds and a record is present; otherwise the details stay
hidden and only the message is shown in the error slot. -/
def displayVerifyResponse (r : VerifyPdfResponse) (u : Ui) : Ui :=
  let u1 := {u with verifyResultHidden := false}
  match r.is_signed, r.signature_info with
  | true, some info =>
      {u1 with verifySuccessHidden := false,
               verifyErrorHidden := true,
               verifyDetailsHidden := false,
               verifyMessage := r.message,
               verifyName := info.signer_name,
               verifyTimestamp := info.timestamp,
               verifyExtra := if info.extra = "" then "(none)" else info.extra,
               verifySignature := info.signature}
  | _, _ =>
      {u1 with verifySuccessHidden := true,
               verifyErrorHidden := false,
               verifyDetailsHidden := true,
               verifyErrorMessage := r.message}

/-- Embeds `handleFileSelect` from utils.ts lines 94-110, the single funnel
for both the drop and the file-picker paths of `setupDropZone`: a file whose
MIME type does not contain "pdf" is dropped before the callback runs; a PDF
runs the caller-supplied selection callback and fills the file-info panel. -/
def handleFileSelect (f : FileModel)
    (onFileSelect : FileModel → AppState × Ui → AppState × Ui)
    (su : AppState × Ui) : AppState × Ui :=
  if strIncludes f.mimeType "pdf" then
    let su1 := onFileSelect f su
    (su1.1, {su1.2 with fileInfoHidden := false,
                        fileName := f.name,
                        fileSize := formatFileSize f.size,
                        dropZoneContentHidden := true})
  else su

/-- Embeds `signPdf` from main.ts lines 257-282 as a transition taking the
input-field values and the Tauri engine as arguments; the third component
records the request sent across the boundary, `none` when `invoke` was never
reached. -/
def signPdfHandler (s : AppState) (u : Ui) (nameValue extraValue : String)
    (engine : SignPdfRequest → Except String SignPdfResponse) :
    AppState × Ui × Option SignPdfRequest :=
  match s.selectedFile, jsTrim nameValue == "" with
  | some f, false =>
      let u1 := setBtnSignLoading u
      let req : SignPdfRequest := ⟨f.bytes, jsTrim nameValue, jsTrim extraValue⟩
      match engine req with
      | Except.ok resp =>
          ({s with signedPdfData := some resp.signed_pdf},
           resetBtnSign (displaySignResultUi resp u1), some req)
      | Except.error e =>
          (s, resetBtnSign (showErrorUi u1 ("Failed to sign PDF: " ++ e)), some req)
  | _, _ =>
      (s, showErrorUi u "Please enter your name and select a PDF file.", none)

/-- Embeds `verifyPdf` from main.ts lines 306-340 as a transition over the
application and UI state, with the Tauri engine as an argument. -/
def verifyPdfHandler (s : AppState) (u : Ui)
    (engine : List Nat → Except String VerifyPdfResponse) : AppState × Ui :=
  match s.verifySelectedFile with
  | none => (s, u)
  | some f =>
      let u1 := setBtnVerifyLoading u
      match engine f.bytes with
      | Except.ok resp => (s, resetBtnVerify (displayVerifyResponse resp u1))
      | Except.error e =>
          (s, resetBtnVerify (showErrorUi u1 ("Failed to verify PDF: " ++ e)))

/-- Embeds `generateKeypair` from main.ts lines 217-231: an info modal is
shown, then on engine success the key state is installed and the key UI
switched; on failure the modal is replaced by an error and nothing else
changes. -/
def generateKeypairHandler (res : Except String String)
    (s : AppState) (u : Ui) : AppState × Ui :=
  let u1 := showModalUi u "Generate Keypair"
      "<p class=\"message info\">Generating RSA keypair...</p>"
  match res with
  | Except.ok pub =>
      let s1 := {s with currentPublicKey := pub, hasKey := true}
      (s1, showTemporarySuccessUi (updateKeyUi s1 true (hideModalUi u1))
            "Keypair generated successfully!")
  | Except.error e =>
      (s, showErrorUi (hideModalUi u1) ("Failed to generate keypair: " ++ e))

/-- Embeds `importKey` from main.ts lines 233-245. -/
def importKeyHandler (res : Except String String)
    (s : AppState) (u : Ui) : AppState × Ui :=
  match res with
  | Except.ok pub =>
      let s1 := {s with currentPublicKey := pub, hasKey := true}
      (s1, showTemporarySuccessUi (updateKeyUi s1 true (hideModalUi u))
            "Key imported successfully!")
  | Except.error e =>
      (s, showErrorUi (hideModalUi u) ("Failed to import key: " ++ e))

/-- Modelled from the spec: the Rust engine behind the Tauri boundary is not
in the frontend sources; SHA-256 is abstracted as a deterministic, executable
digest over the canonical bytes (only determinism of the digest is used by
the theorems below). -/
def hashBytes (l : List Nat) : Nat := l.foldl (fun a b => a * 31 + b + 1) 7

/-- Modelled from the spec: the RSA primitive of the missing engine, as an
abstract scheme — a signing function over (digest, private key), a
verification predicate over (signature, digest, public key), the derivation
of the public key from the private key, and the FIPS 186-4 correctness
property that a signature made with a private key verifies under the
corresponding public key. -/
structure CryptoScheme where
  sign : Nat → Nat → Nat
  verify : Nat → Nat → Nat → Bool
  derivePub : Nat → Nat
  verify_sign : ∀ d p, verify (sign d p) d (derivePub p) = true

/-- Concrete instance of the abstract scheme used to evaluate the theorems
at explicit inputs. -/
def toyCrypto : CryptoScheme where
  sign d p := Nat.pair d p
  derivePub p := p
  verify s d pub := s == Nat.pair d pub
  verify_sign d p := by simp

/-- Modelled from the spec: the SignatureRecord of the missing engine —
signer name, ISO-8601 timestamp captured at sign time, extra text, raw
signature output, and the digest and signature algorithm identifiers. -/
structure SignatureRecord where
  signerName : String
  timestamp : String
  extra : String
  signatureBytes : Nat
  digestAlg : String
  sigAlg : String
deriving Repr, DecidableEq

/-- Modelled from the spec: a document as the engine's Canonicalizer sees
it — the canonical content bytes, plus the at-most-one embedded
SignatureRecord carried by a trailing incremental update. An unsigned byte
sequence is a `Document` with `record = none`. -/
structure Document where
  content : List Nat
  record : Option SignatureRecord
deriving Repr, DecidableEq

/-- Modelled from the spec: `Canonicalizer.computeRange` — the whole
document when no record is embedded, and everything before the record's
incremental update when one is; in this representation, the content bytes
in both cases. -/
def computeRange (d : Document) : List Nat := d.content

/-- Modelled from the spec: the structural failures of the sign path. -/
inductive EngineError where
  | noKeyLoaded
  | invalidInput
deriving Repr, DecidableEq

/-- Modelled from the spec: `Signer.sign` — require a resident key, require
a non-empty signer name, hash the canonical range, RSA-sign the digest,
capture the timestamp once, and append the new record as an incremental
update over the canonical content, discarding a previously embedded record
rather than nesting it. Any failure aborts with no partial output. -/
def signDoc (c : CryptoScheme) (ks : Option Nat) (d : Document)
    (name extra ts : String) : Except EngineError (Document × SignatureRecord) :=
  match ks with
  | none => Except.error EngineError.noKeyLoaded
  | some priv =>
      if name = "" then Except.error EngineError.invalidInput
      else
        let digest := hashBytes (computeRange d)
        let newRecord : SignatureRecord :=
          ⟨name, ts, extra, c.sign digest priv, "SHA-256", "RSA-PSS"⟩
        Except.ok (⟨computeRange d, some newRecord⟩, newRecord)

/-- Modelled from the spec: the verification result record. -/
structure VerificationResult where
  isSigned : Bool
  record : Option SignatureRecord
  message : String
deriving Repr, DecidableEq

/-- Modelled from the spec: step 6 of `Verifier.verify` — the cryptographic
check of the embedded signature against the digest and the resident public
key; it cannot succeed when no key is resident. -/
def cryptoCheck (c : CryptoScheme) (pub : Option Nat) (digest sig : Nat) : Bool :=
  match pub with
  | some k => c.verify sig digest k
  | none => false

/-- Modelled from the spec: `Verifier.verify` — no embedded record is the
valid "not signed" outcome; a record with unknown algorithm identifiers is
"signature record corrupt"; otherwise the canonical range is re-hashed and
the cryptographic check decides between "valid" and "signature does not
match content", the record being returned in either case. -/
def verifyDoc (c : CryptoScheme) (pub : Option Nat) (d : Document) :
    VerificationResult :=
  match d.record with
  | none => ⟨false, none, "not signed"⟩
  | some r =>
      if r.digestAlg = "SHA-256" ∧ r.sigAlg = "RSA-PSS" then
        if cryptoCheck c pub (hashBytes (computeRange d)) r.signatureBytes then
          ⟨true, some r, "valid"⟩
        else ⟨false, some r, "signature does not match content"⟩
      else ⟨false, some r, "signature record corrupt"⟩

/-- Modelled from the spec: the verify operation at the engine-state level —
the resident keypair is the process-wide state, verification resolves the
derived public key and returns its result together with the untouched key
state and the untouched document. -/
def verifyOp (c : CryptoScheme) (st : Option Nat) (d : Document) :
    VerificationResult × Option Nat × Document :=
  (verifyDoc c (st.map c.derivePub) d, st, d)

/-- Default application state as initialised by main.ts lines 65-72. -/
def initState : AppState := ⟨false, "", none, none, none, "sign-section"⟩

/-- Default UI state: modal hidden, result panels hidden, fields empty,
action buttons disabled, no-key view. -/
def initUi : Ui :=
  ⟨false, "", "", false, false, true, true, "No key loaded", false, true,
   true, true, true, "", "", "", "", true, true, true, true, "", "", "", "",
   "", "", true, "", "", false⟩

/-- Sample PDF file value used to evaluate theorems at concrete inputs. -/
def samplePdfFile : FileModel :=
  ⟨"doc.pdf", 2048, "application/pdf", [37, 80, 68, 70]⟩

/-- Claim C1: for every document P, every non-empty signer name N and every
extra text, with a keypair resident, sending P through the sign operation
and then verifying the produced document against the same resident key
reports isSigned = true. -/
theorem c1_sign_then_verify_isSigned (c : CryptoScheme) (priv : Nat)
    (d : Document) (n extra ts : String) (hn : n ≠ "") :
    ∃ out sr, signDoc c (some priv) d n extra ts = Except.ok (out, sr) ∧
      (verifyDoc c (some (c.derivePub priv)) out).isSigned = true := by
  refine ⟨⟨computeRange d, some ⟨n, ts, extra,
      c.sign (hashBytes (computeRange d)) priv, "SHA-256", "RSA-PSS"⟩⟩,
    ⟨n, ts, extra, c.sign (hashBytes (computeRange d)) priv,
      "SHA-256", "RSA-PSS"⟩, ?_, ?_⟩
  · simp [signDoc, hn]
  · simp [verifyDoc, cryptoCheck, computeRange, c.verify_sign]

/-- Claim C1, witness: the round trip evaluated at a concrete document,
name and key. -/
theorem c1_witness :
    ∃ out sr, signDoc toyCrypto (some 5) ⟨[1, 2, 3], none⟩ "Alice" ""
        "2024-01-01T00:00:00Z" = Except.ok (out, sr) ∧
      (verifyDoc toyCrypto (some (toyCrypto.derivePub 5)) out).isSigned = true :=
  c1_sign_then_verify_isSigned toyCrypto 5 ⟨[1, 2, 3], none⟩ "Alice" ""
    "2024-01-01T00:00:00Z" (by decide)

/-- Claim C2, counterexample: a verification response that carries a
located record together with isSigned = false and the mismatch message is
not displayed by the frontend — the details section is hidden and the
signer name is never written to the page, refuting the claim that the
record is displayed whenever it is located but the check fails. -/
theorem c2_counterexample :
    (displayVerifyResponse
        ⟨false, some ⟨"Alice", "2024-01-01T00:00:00Z", "", "0"⟩,
         "signature does not match content"⟩ initUi).verifyDetailsHidden = true ∧
    (displayVerifyResponse
        ⟨false, some ⟨"Alice", "2024-01-01T00:00:00Z", "", "0"⟩,
         "signature does not match content"⟩ initUi).verifyName ≠ "Alice" := by
  constructor
  · rfl
  · decide

/-- Claim C2, amended: when the record is located and well-formed but the
cryptographic check fails, the engine's verification result still contains
the record alongside isSigned = false and the mismatch message; the
frontend, however, does not display the record's fields on such a failure —
it hides the details section and surfaces only the message in the error
slot. -/
theorem c2_record_surfaced_not_displayed
    (c : CryptoScheme) (pub : Option Nat) (d : Document) (r : SignatureRecord)
    (hr : d.record = some r) (h1 : r.digestAlg = "SHA-256")
    (h2 : r.sigAlg = "RSA-PSS")
    (hfail : cryptoCheck c pub (hashBytes (computeRange d)) r.signatureBytes
      = false)
    (resp : VerifyPdfResponse) (u : Ui) (hresp : resp.is_signed = false) :
    verifyDoc c pub d = ⟨false, some r, "signature does not match content"⟩ ∧
    (displayVerifyResponse resp u).verifyDetailsHidden = true ∧
    (displayVerifyResponse resp u).verifyErrorHidden = false ∧
    (displayVerifyResponse resp u).verifyErrorMessage = resp.message := by
  constructor
  · simp [verifyDoc, hr, h1, h2, hfail]
  · cases resp with
    | mk iss si msg =>
      simp only [VerifyPdfResponse.is_signed] at hresp
      subst hresp
      cases si <;> simp [displayVerifyResponse]

/-- Claim C2, witness for the amended statement: evaluated at a concrete
tampered document whose embedded signature fails the toy scheme's check. -/
theorem c2_amended_witness :
    verifyDoc toyCrypto (some 1)
        ⟨[1], some ⟨"Alice", "t", "", 0, "SHA-256", "RSA-PSS"⟩⟩ =
      ⟨false, some ⟨"Alice", "t", "", 0, "SHA-256", "RSA-PSS"⟩,
        "signature does not match content"⟩ ∧
    (displayVerifyResponse ⟨false, some ⟨"Alice", "t", "", "0"⟩,
        "signature does not match content"⟩ initUi).verifyDetailsHidden = true ∧
    (displayVerifyResponse ⟨false, some ⟨"Alice", "t", "", "0"⟩,
        "signature does not match content"⟩ initUi).verifyErrorHidden = false ∧
    (displayVerifyResponse ⟨false, some ⟨"Alice", "t", "", "0"⟩,
        "signature does not match content"⟩ initUi).verifyErrorMessage =
      (⟨false, some ⟨"Alice", "t", "", "0"⟩,
        "signature does not match content"⟩ : VerifyPdfResponse).message :=
  c2_record_surfaced_not_displayed toyCrypto (some 1)
    ⟨[1], some ⟨"Alice", "t", "", 0, "SHA-256", "RSA-PSS"⟩⟩
    ⟨"Alice", "t", "", 0, "SHA-256", "RSA-PSS"⟩
    rfl rfl rfl (by decide)
    ⟨false, some ⟨"Alice", "t", "", "0"⟩, "signature does not match content"⟩
    initUi rfl

/-- Claim C3: a signer name that is empty or whitespace-only after trimming
makes the sign flow fail up front — the handler shows the validation error,
leaves the state untouched and never reaches the engine (request component
none); and the engine itself, given an empty trimmed name, rejects with
InvalidInputError before producing any document. -/
theorem c3_empty_name_blocks_sign (s : AppState) (u : Ui) (nv ev : String)
    (engine : SignPdfRequest → Except String SignPdfResponse)
    (c : CryptoScheme) (priv : Nat) (d : Document) (ex ts : String)
    (h : jsTrim nv = "") :
    signPdfHandler s u nv ev engine =
      (s, showErrorUi u "Please enter your name and select a PDF file.", none) ∧
    signDoc c (some priv) d (jsTrim nv) ex ts =
      Except.error EngineError.invalidInput := by
  constructor
  · cases hf : s.selectedFile <;> simp [signPdfHandler, hf, h]
  · simp [signDoc, h]

/-- Claim C3, witness: a whitespace-only name with a PDF already selected
still blocks the sign flow. -/
theorem c3_witness :
    signPdfHandler {initState with selectedFile := some samplePdfFile} initUi
        "   " "note" (fun _ => Except.error "engine reached") =
      ({initState with selectedFile := some samplePdfFile},
       showErrorUi initUi "Please enter your name and select a PDF file.",
       none) ∧
    signDoc toyCrypto (some 5) ⟨[1], none⟩ (jsTrim "   ") "note" "t" =
      Except.error EngineError.invalidInput :=
  c3_empty_name_blocks_sign {initState with selectedFile := some samplePdfFile}
    initUi "   " "note" (fun _ => Except.error "engine reached")
    toyCrypto 5 ⟨[1], none⟩ "note" "t" (by decide)

/-- Claim C4: whenever the sign flow fails — at input validation or because
the engine rejects every request — the resulting application state is the
input state: the selected file's bytes and the previously stored
signedPdfData keep their prior values; only the error modal changes. -/
theorem c4_sign_failure_no_side_effects (s : AppState) (u : Ui)
    (nv ev : String) (engine : SignPdfRequest → Except String SignPdfResponse)
    (hfail : ∀ req, ∃ msg, engine req = Except.error msg) :
    (signPdfHandler s u nv ev engine).1 = s := by
  cases hf : s.selectedFile with
  | none => simp [signPdfHandler, hf]
  | some f =>
    cases hb : (jsTrim nv == "") with
    | true => simp [signPdfHandler, hf, hb]
    | false =>
      obtain ⟨msg, hm⟩ := hfail ⟨f.bytes, jsTrim nv, jsTrim ev⟩
      simp [signPdfHandler, hf, hb, hm]

/-- Claim C4, witness: a failing engine call with a valid name and selected
file leaves the application state intact. -/
theorem c4_witness :
    (signPdfHandler {initState with
        selectedFile := some samplePdfFile,
        signedPdfData := some [9, 9]} initUi "Alice" ""
      (fun _ => Except.error "boom")).1 =
      {initState with
        selectedFile := some samplePdfFile,
        signedPdfData := some [9, 9]} :=
  c4_sign_failure_no_side_effects {initState with
      selectedFile := some samplePdfFile, signedPdfData := some [9, 9]}
    initUi "Alice" "" (fun _ => Except.error "boom")
    (fun _ => ⟨"boom", rfl⟩)

/-- Claim C5: an input with no embedded signature record verifies to
isSigned = false, record = none and the message "not signed"; the verifier
is a total function, so this is a normal returned outcome and not a thrown
error. -/
theorem c5_unsigned_verify (c : CryptoScheme) (pub : Option Nat)
    (d : Document) (h : d.record = none) :
    verifyDoc c pub d = ⟨false, none, "not signed"⟩ := by
  simp [verifyDoc, h]

/-- Claim C5, witness: a concrete unsigned document. -/
theorem c5_witness :
    verifyDoc toyCrypto (some 1) ⟨[1, 2], none⟩ = ⟨false, none, "not signed"⟩ :=
  c5_unsigned_verify toyCrypto (some 1) ⟨[1, 2], none⟩ rfl

/-- Claim C6: re-signing an already-signed document with a second non-empty
name produces a document whose verification reports the second signer's
record; the first record is discarded, not stacked, so the reported record
is never the first signer's when the names differ. -/
theorem c6_resign_replaces (c : CryptoScheme) (p1 p2 : Nat) (d : Document)
    (n1 e1 t1 n2 e2 t2 : String) (h1 : n1 ≠ "") (h2 : n2 ≠ "") :
    ∃ d1 r1 d2 r2,
      signDoc c (some p1) d n1 e1 t1 = Except.ok (d1, r1) ∧
      signDoc c (some p2) d1 n2 e2 t2 = Except.ok (d2, r2) ∧
      (verifyDoc c (some (c.derivePub p2)) d2).record = some r2 ∧
      r2.signerName = n2 ∧ r1.signerName = n1 ∧
      (n2 ≠ n1 →
        (verifyDoc c (some (c.derivePub p2)) d2).record ≠ some r1) := by
  refine ⟨⟨computeRange d, some ⟨n1, t1, e1,
        c.sign (hashBytes (computeRange d)) p1, "SHA-256", "RSA-PSS"⟩⟩,
      ⟨n1, t1, e1, c.sign (hashBytes (computeRange d)) p1,
        "SHA-256", "RSA-PSS"⟩,
      ⟨computeRange d, some ⟨n2, t2, e2,
        c.sign (hashBytes (computeRange d)) p2, "SHA-256", "RSA-PSS"⟩⟩,
      ⟨n2, t2, e2, c.sign (hashBytes (computeRange d)) p2,
        "SHA-256", "RSA-PSS"⟩, ?_, ?_, ?_, rfl, rfl, ?_⟩
  · simp [signDoc, h1]
  · simp [signDoc, h2, computeRange]
  · simp [verifyDoc, computeRange, cryptoCheck, c.verify_sign]
  · intro hne heq
    simp [verifyDoc, computeRange, cryptoCheck, c.verify_sign] at heq
    exact hne heq.1

/-- Claim C6, witness: re-signing a concrete document signed by Alice with
the name Bob reports Bob's record. -/
theorem c6_witness :
    ∃ d1 r1 d2 r2,
      signDoc toyCrypto (some 3) ⟨[9], none⟩ "Alice" "" "t1" =
        Except.ok (d1, r1) ∧
      signDoc toyCrypto (some 5) d1 "Bob" "" "t2" = Except.ok (d2, r2) ∧
      (verifyDoc toyCrypto (some (toyCrypto.derivePub 5)) d2).record =
        some r2 ∧
      r2.signerName = "Bob" ∧ r1.signerName = "Alice" ∧
      ("Bob" ≠ "Alice" →
        (verifyDoc toyCrypto (some (toyCrypto.derivePub 5)) d2).record ≠
          some r1) :=
  c6_resign_replaces toyCrypto 3 5 ⟨[9], none⟩ "Alice" "" "t1" "Bob" "" "t2"
    (by decide) (by decide)

/-- Claim C7: verification is a pure function of the document bytes and the
resident public key — two engine states deriving the same public key give
identical results, the verify operation returns the key state and the
document untouched, and the frontend verify handler never changes the
application state (in particular neither the key state nor the stored
signed document). -/
theorem c7_verify_pure (c : CryptoScheme) (st st2 : Option Nat) (d : Document)
    (s : AppState) (u : Ui)
    (engine : List Nat → Except String VerifyPdfResponse)
    (hpub : st.map c.derivePub = st2.map c.derivePub) :
    (verifyOp c st d).1 = (verifyOp c st2 d).1 ∧
    (verifyOp c st d).2.1 = st ∧ (verifyOp c st d).2.2 = d ∧
    (verifyPdfHandler s u engine).1 = s := by
  refine ⟨?_, rfl, rfl, ?_⟩
  · simp [verifyOp, hpub]
  · cases hf : s.verifySelectedFile with
    | none => simp [verifyPdfHandler, hf]
    | some f => cases he : engine f.bytes <;> simp [verifyPdfHandler, hf, he]

/-- Claim C7, witness: evaluated at a concrete key state, document and
failing engine. -/
theorem c7_witness :
    (verifyOp toyCrypto (some 2) ⟨[5], none⟩).1 =
      (verifyOp toyCrypto (some 2) ⟨[5], none⟩).1 ∧
    (verifyOp toyCrypto (some 2) ⟨[5], none⟩).2.1 = some 2 ∧
    (verifyOp toyCrypto (some 2) ⟨[5], none⟩).2.2 = ⟨[5], none⟩ ∧
    (verifyPdfHandler {initState with verifySelectedFile := some samplePdfFile}
        initUi (fun _ => Except.error "x")).1 =
      {initState with verifySelectedFile := some samplePdfFile} :=
  c7_verify_pure toyCrypto (some 2) (some 2) ⟨[5], none⟩
    {initState with verifySelectedFile := some samplePdfFile} initUi
    (fun _ => Except.error "x") rfl

/-- Claim C8: formatFileSize selects its unit by the fixed thresholds 1024
and 1048576 — below 1024 the integer byte count with " B", from 1024 up to
1048576 the one-decimal kilobyte rendering with " KB", and from 1048576 on
the one-decimal megabyte rendering with " MB"; the three ranges cover every
byte count, so the function is total with no unit above MB. -/
theorem c8_formatFileSize_spec (b : Nat) :
    (b < 1024 ∧ formatFileSize b = toString b ++ " B") ∨
    (1024 ≤ b ∧ b < 1048576 ∧
      formatFileSize b = oneDecimalString (jsToFixed1 b 1024) ++ " KB") ∨
    (1048576 ≤ b ∧
      formatFileSize b = oneDecimalString (jsToFixed1 b 1048576) ++ " MB") := by
  by_cases hb1 : b < 1024
  · exact Or.inl ⟨hb1, by simp [formatFileSize, hb1]⟩
  · by_cases hb2 : b < 1048576
    · refine Or.inr (Or.inl ⟨by omega, hb2, ?_⟩)
      simp only [formatFileSize, if_neg hb1]
      rw [if_pos (by norm_num at hb2 ⊢; omega)]
    · refine Or.inr (Or.inr ⟨by omega, ?_⟩)
      simp only [formatFileSize, if_neg hb1]
      rw [if_neg (by norm_num at hb2 ⊢; omega)]

/-- Claim C9: a file whose MIME type does not contain "pdf" is ignored by
the file-selection funnel shared by the drop and file-picker paths — the
selection callback is never invoked (the result is the same for every
callback) and neither the application state nor the file-info or drop-zone
UI changes. -/
theorem c9_non_pdf_ignored (f : FileModel)
    (cb : FileModel → AppState × Ui → AppState × Ui) (su : AppState × Ui)
    (h : strIncludes f.mimeType "pdf" = false) :
    handleFileSelect f cb su = su := by
  simp [handleFileSelect, h]

/-- Claim C9, witness: a PNG drop is ignored. -/
theorem c9_witness :
    handleFileSelect ⟨"cat.png", 100, "image/png", []⟩ (fun _ x => x)
      (initState, initUi) = (initState, initUi) :=
  c9_non_pdf_ignored ⟨"cat.png", 100, "image/png", []⟩ (fun _ x => x)
    (initState, initUi) (by decide)

/-- Claim C10: a failed keypair generation or key import leaves the
application state unchanged — hasKey and currentPublicKey keep their prior
values — and the key UI keeps its prior view (key section, public-key text,
sign form, export button all unchanged); only the error modal is shown. -/
theorem c10_key_failure_state_unchanged (e1 e2 : String) (s : AppState)
    (u : Ui) :
    (generateKeypairHandler (Except.error e1) s u).1 = s ∧
    (generateKeypairHandler (Except.error e1) s u).2.keySectionHidden =
      u.keySectionHidden ∧
    (generateKeypairHandler (Except.error e1) s u).2.publicKeyContent =
      u.publicKeyContent ∧
    (generateKeypairHandler (Except.error e1) s u).2.signFormHidden =
      u.signFormHidden ∧
    (generateKeypairHandler (Except.error e1) s u).2.btnExportKeyHidden =
      u.btnExportKeyHidden ∧
    (generateKeypairHandler (Except.error e1) s u).2.modalTitle = "Error" ∧
    (importKeyHandler (Except.error e2) s u).1 = s ∧
    (importKeyHandler (Except.error e2) s u).2.keySectionHidden =
      u.keySectionHidden ∧
    (importKeyHandler (Except.error e2) s u).2.publicKeyContent =
      u.publicKeyContent ∧
    (importKeyHandler (Except.error e2) s u).2.signFormHidden =
      u.signFormHidden ∧
    (importKeyHandler (Except.error e2) s u).2.modalTitle = "Error" :=
  ⟨rfl, rfl, rfl, rfl, rfl, rfl, rfl, rfl, rfl, rfl, rfl⟩

end Sigillum
